import Mathlib

/-!
Verification of the Field Registry / Value Resolution & Recalculation layer
of a rental-property investment analysis frontend.

The source of truth is `frontend/src/pages/property/[id].tsx` (field registry,
value resolution, formatting, edit handling, recalculation) and
`frontend/src/pages/mypage.tsx` (wire-format case converters).

Modelling conventions:
* JavaScript numbers are modelled as rationals (`ℚ`).
* `Math.round(x)` and the rounding used by `toFixed` (ties go to the larger
  value, i.e. towards +infinity) are modelled by `jsRound`, which equals
  Mathlib's `round` (`⌊x + 1/2⌋`).
* JavaScript objects used as dictionaries are modelled as association lists
  in insertion order; `obj[k]` is `alookup k l : Option _`.
* `a ?? b` on an optional number is `Option.getD`; `a || b` on a number is
  `jsOrNum` (any falsy number, i.e. 0, falls through to the default).
* A possibly-missing JS value (`undefined`) is `Option` / `JSVal.undef`.
-/

/- The Batteries rational operations are `@[irreducible]`, which blocks
kernel evaluation by `decide`/`rfl`; restore default reducibility locally. -/
attribute [local semireducible] Rat.add Rat.sub Rat.mul Rat.inv Rat.ofScientific

/-! ## JavaScript primitives -/
/-- Floor of a rational, computable form (`q.num / q.den` with integer
floor division). -/
def ratFloor (q : ℚ) : ℤ := q.num / (q.den : ℤ)

/-- `Math.round` (and the integer selection of `toFixed`): round to the
nearest integer, ties towards +infinity. -/
def jsRound (q : ℚ) : ℤ := ratFloor (q + 1/2)

/-- `x || d` for a JS number `x` that may be absent: `undefined`, `null`
and `0` (the only falsy number arising here) all fall through to `d`. -/
def jsOrNum (o : Option ℚ) (d : ℚ) : ℚ :=
  match o with
  | none => d
  | some q => if q = 0 then d else q

/-- `s || d` for a JS string that may be absent: `undefined`, `null` and
the empty string fall through to `d`. -/
def jsOrStr (o : Option String) (d : String) : String :=
  match o with
  | none => d
  | some s => if s = "" then d else s

/-- ASCII lower-casing of one character, as `String.prototype.toLowerCase`
acts on the characters occurring in the registry's display names. -/
def jsToLowerChar (c : Char) : Char :=
  if 'A' ≤ c ∧ c ≤ 'Z' then Char.ofNat (c.toNat + 32) else c

/-- `name.toLowerCase()`. -/
def toLowerStr (s : String) : String := String.mk (s.toList.map jsToLowerChar)

/-- Is `pat` a contiguous sublist of the second argument?
Models `String.prototype.includes` below. -/
def listContainsSub (pat : List Char) : List Char → Bool
  | [] => pat.isEmpty
  | c :: rest => pat.isPrefixOf (c :: rest) || listContainsSub pat rest

/-- `hay.includes(pat)`. -/
def containsSub (pat hay : String) : Bool := listContainsSub pat.toList hay.toList

/-- Decimal digit characters of a natural number, most significant first. -/
def digitChars (n : ℕ) : List Char := Nat.toDigits 10 n

/-- Insert a `,` after every third character of a little-endian digit list
(helper for `Intl.NumberFormat` grouping). -/
def insertCommasRev : List Char → List Char
  | d1 :: d2 :: d3 :: d4 :: rest => d1 :: d2 :: d3 :: ',' :: insertCommasRev (d4 :: rest)
  | l => l

/-- Digits of `n` grouped in threes by commas, e.g. `450000 ↦ "450,000"`:
the en-US integer grouping of `Intl.NumberFormat`. -/
def commaGroup (n : ℕ) : String :=
  String.mk (insertCommasRev (digitChars n).reverse).reverse

/-- `parseFloat(q.toFixed(2))`: round to two fractional digits (ties to the
larger value) and read the result back as a number. -/
def jsToFixed2 (q : ℚ) : ℚ := ((jsRound (q * 100) : ℤ) : ℚ) / 100

/-- The string `q.toFixed(2)`: sign, integer part, `.`, exactly two
fractional digits, no grouping. -/
def toFixed2Str (q : ℚ) : String :=
  let m : ℤ := jsRound (q * 100)
  let sign : String := if m < 0 then "-" else ""
  let ip : ℕ := m.natAbs / 100
  let fp : ℕ := m.natAbs % 100
  sign ++ String.mk (digitChars ip) ++ "." ++
    (if fp < 10 then "0" else "") ++ String.mk (digitChars fp)

/-! ## Data model

`PropertyItem`, `PropertyDetail` and the snapshot shape follow the
interfaces at the top of `property/[id].tsx`; the three value mappings of a
snapshot (`api_data`, `user_inputs`, `calculated_data`) are the spec's
sourced facts, user inputs and derived metrics. -/
/-- `value_type` of a line item: `'API Data' | 'user input' | 'Calculated'`
(the spec's Sourced / UserInput / Derived provenance kinds). -/
inductive VType where
  | apiData
  | userInput
  | calculated
deriving DecidableEq

/-- One line item of the static field registry (`PropertyItem`). -/
structure PropertyItem where
  name : String
  value_type : VType
  sectionLabel : String
  format : Option String
deriving DecidableEq

/-- A JavaScript value as it flows out of `getValue`: a number, a string,
or `undefined`. -/
inductive JSVal where
  | num (q : ℚ)
  | str (s : String)
  | undef
deriving DecidableEq

/-- The fields of `property.api_data` that the page reads (each may be
absent from the payload, hence `Option`). -/
structure ApiData where
  address : Option String
  fair_market_value : Option ℚ
  number_of_units : Option ℚ
  offer_price : Option ℚ
  first_mtg_interest_rate : Option ℚ
  property_taxes : Option ℚ
  insurance : Option ℚ
  association_fees : Option ℚ
  gross_rents : Option ℚ
  transfer_tax : Option ℚ
deriving DecidableEq

/-- One property of the snapshot payload (`properties[0]`):
`api_data` is structured, `user_inputs` and `calculated_data` are
string-keyed dictionaries, plus the scalar `cashflow_per_unit`. -/
structure Property where
  api_data : ApiData
  user_inputs : List (String × ℚ)
  calculated_data : List (String × ℚ)
  cashflow_per_unit : ℚ
deriving DecidableEq

/-- The snapshot payload (`PropertyDetail` interface): a `properties`
array. -/
structure PropertyDetailResp where
  properties : List Property
deriving DecidableEq

/-- Dictionary lookup, `obj[k]` on a JS object modelled as an association
list in insertion order. -/
def alookup (k : String) : List (String × α) → Option α
  | [] => none
  | (k', v) :: rest => if k' = k then some v else alookup k rest

/-! ## The field registry (`groupedItems`) -/
/-- Shorthand for a registry row. -/
def mkItem (n : String) (t : VType) (sec : String) (f : String) : PropertyItem :=
  ⟨n, t, sec, some f⟩

/-- `groupedItems`: the full static catalog, sections in declaration order,
items in declaration order within each section. -/
def groupedItems : List (String × List PropertyItem) :=
  [ ("Property Info",
     [ mkItem "Fair Market Value" .apiData "Property Info" "currency"
     , mkItem "Vacancy Rate" .userInput "Property Info" "percentage"
     , mkItem "Management Rate" .userInput "Property Info" "percentage"
     , mkItem "Advertising Cost per Vacancy" .userInput "Property Info" "currency"
     , mkItem "Number of Units" .apiData "Property Info" "number"
     , mkItem "Annual Appreciation Rate" .userInput "Property Info" "percentage" ])
  , ("Purchase Info",
     [ mkItem "Offer Price" .apiData "Purchase Info" "currency"
     , mkItem "Repairs" .userInput "Purchase Info" "currency"
     , mkItem "Repairs Contingency" .userInput "Purchase Info" "currency"
     , mkItem "Lender Fee" .userInput "Purchase Info" "currency"
     , mkItem "Broker Fee" .userInput "Purchase Info" "currency"
     , mkItem "Environmentals" .userInput "Purchase Info" "currency"
     , mkItem "Inspections" .userInput "Purchase Info" "currency"
     , mkItem "Appraisals" .userInput "Purchase Info" "currency"
     , mkItem "Misc" .userInput "Purchase Info" "currency"
     , mkItem "Transfer Tax" .apiData "Purchase Info" "currency"
     , mkItem "Legal" .userInput "Purchase Info" "currency"
     , mkItem "Real Purchase Price (RPP)" .calculated "Purchase Info" "currency" ])
  , ("Financing (Monthly)",
     [ mkItem "1st Mtg Principle Borrowed" .calculated "Financing (Monthly)" "currency"
     , mkItem "1st Mtg Interest Rate" .apiData "Financing (Monthly)" "percentage"
     , mkItem "1st Mtg Amortization Period" .userInput "Financing (Monthly)" "number"
     , mkItem "1st Mtg CMHC Fee" .userInput "Financing (Monthly)" "percentage"
     , mkItem "1st Mtg Total Principle" .calculated "Financing (Monthly)" "currency"
     , mkItem "1st Mtg Total Monthly Payment" .calculated "Financing (Monthly)" "currency"
     , mkItem "2nd Mtg Principle Amount" .userInput "Financing (Monthly)" "currency"
     , mkItem "2nd Mtg Interest Rate" .userInput "Financing (Monthly)" "percentage"
     , mkItem "2nd Mtg Amortization Period" .userInput "Financing (Monthly)" "number"
     , mkItem "2nd Mtg Total Monthly Payment" .calculated "Financing (Monthly)" "currency"
     , mkItem "Interest Only Principle Amount" .userInput "Financing (Monthly)" "currency"
     , mkItem "Interest Only Interest Rate" .userInput "Financing (Monthly)" "percentage"
     , mkItem "Interest Only Total Monthly Payment" .calculated "Financing (Monthly)" "currency"
     , mkItem "Other Monthly Financing Costs" .userInput "Financing (Monthly)" "currency"
     , mkItem "Cash Required to Close" .calculated "Financing (Monthly)" "currency" ])
  , ("Income (Annual)",
     [ mkItem "Gross Rents" .apiData "Income (Annual)" "currency"
     , mkItem "Parking" .userInput "Income (Annual)" "currency"
     , mkItem "Storage" .userInput "Income (Annual)" "currency"
     , mkItem "Laundry / Vending" .userInput "Income (Annual)" "currency"
     , mkItem "Other Income" .userInput "Income (Annual)" "currency"
     , mkItem "Total Income" .calculated "Income (Annual)" "currency"
     , mkItem "Vacancy Loss" .calculated "Income (Annual)" "currency"
     , mkItem "Effective Gross Income" .calculated "Income (Annual)" "currency" ])
  , ("Operating Expenses (Annual)",
     [ mkItem "Property Taxes" .apiData "Operating Expenses (Annual)" "currency"
     , mkItem "Insurance" .apiData "Operating Expenses (Annual)" "currency"
     , mkItem "Repairs" .userInput "Operating Expenses (Annual)" "currency"
     , mkItem "Electricity" .userInput "Operating Expenses (Annual)" "currency"
     , mkItem "Gas" .userInput "Operating Expenses (Annual)" "currency"
     , mkItem "Lawn / Snow Maintenance" .userInput "Operating Expenses (Annual)" "currency"
     , mkItem "Water / Sewer" .userInput "Operating Expenses (Annual)" "currency"
     , mkItem "Cable" .userInput "Operating Expenses (Annual)" "currency"
     , mkItem "Management" .calculated "Operating Expenses (Annual)" "currency"
     , mkItem "Caretaking" .userInput "Operating Expenses (Annual)" "currency"
     , mkItem "Advertising" .calculated "Operating Expenses (Annual)" "currency"
     , mkItem "Association Fees" .apiData "Operating Expenses (Annual)" "currency"
     , mkItem "Pest Control" .calculated "Operating Expenses (Annual)" "currency"
     , mkItem "Security" .calculated "Operating Expenses (Annual)" "currency"
     , mkItem "Trash Removal" .userInput "Operating Expenses (Annual)" "currency"
     , mkItem "Miscellaneous" .userInput "Operating Expenses (Annual)" "currency"
     , mkItem "Common Area Maintenance" .userInput "Operating Expenses (Annual)" "currency"
     , mkItem "Capital Improvements" .userInput "Operating Expenses (Annual)" "currency"
     , mkItem "Accounting" .userInput "Operating Expenses (Annual)" "currency"
     , mkItem "Legal" .userInput "Operating Expenses (Annual)" "currency"
     , mkItem "Bad Debts" .userInput "Operating Expenses (Annual)" "currency"
     , mkItem "Other Expenses" .userInput "Operating Expenses (Annual)" "currency"
     , mkItem "Evictions" .calculated "Operating Expenses (Annual)" "currency"
     , mkItem "Total Expenses" .calculated "Operating Expenses (Annual)" "currency" ])
  , ("Net Operating Income (Annual)",
     [ mkItem "Net Operating Income" .calculated "Net Operating Income (Annual)" "currency" ])
  , ("Cash Requirements",
     [ mkItem "Deposit(s) made with Offer" .userInput "Cash Requirements" "currency"
     , mkItem "Less Pro-Ration of Rents" .userInput "Cash Requirements" "currency"
     , mkItem "Cash Required to Close" .calculated "Cash Requirements" "currency"
     , mkItem "Total Cash Required" .calculated "Cash Requirements" "currency" ])
  , ("Cashflow Summary (Annual)",
     [ mkItem "Effective Gross Income" .calculated "Cashflow Summary (Annual)" "currency"
     , mkItem "Operating Expenses" .calculated "Cashflow Summary (Annual)" "currency"
     , mkItem "Net Operating Income" .calculated "Cashflow Summary (Annual)" "currency"
     , mkItem "Debt Servicing Costs" .calculated "Cashflow Summary (Annual)" "currency"
     , mkItem "Annual Profit or Loss" .calculated "Cashflow Summary (Annual)" "currency"
     , mkItem "Total Monthly Profit or Loss" .calculated "Cashflow Summary (Annual)" "currency"
     , mkItem "Cashflow per Unit per Month" .calculated "Cashflow Summary (Annual)" "currency" ])
  , ("Quick Analysis",
     [ mkItem "1st Mortgage LTV" .calculated "Quick Analysis" "percentage"
     , mkItem "1st Mortgage LTPP" .calculated "Quick Analysis" "percentage"
     , mkItem "2nd Mortgage LTV" .calculated "Quick Analysis" "percentage"
     , mkItem "2nd Mortgage LTPP" .calculated "Quick Analysis" "percentage"
     , mkItem "Cap Rate on PP" .calculated "Quick Analysis" "percentage"
     , mkItem "Cap Rate on FMV" .calculated "Quick Analysis" "percentage"
     , mkItem "Average Rent" .calculated "Quick Analysis" "currency"
     , mkItem "GRM" .calculated "Quick Analysis" "number"
     , mkItem "DCR" .calculated "Quick Analysis" "number"
     , mkItem "Cash on Cash ROI" .calculated "Quick Analysis" "percentage"
     , mkItem "Equity ROI (After 1 Year)" .calculated "Quick Analysis" "percentage"
     , mkItem "Appreciation ROI (After 1 Year)" .calculated "Quick Analysis" "percentage"
     , mkItem "Total ROI (After 1 Year)" .calculated "Quick Analysis" "percentage"
     , mkItem "Forced App. ROI (After 1 Year)" .calculated "Quick Analysis" "percentage"
     , mkItem "Expense to Income Ratio" .calculated "Quick Analysis" "percentage" ])
  ]

/-- Every registry item, in display order. -/
def allItems : List PropertyItem := (groupedItems.map Prod.snd).flatten

/-- The declared UserInput line items. -/
def userInputItems : List PropertyItem :=
  allItems.filter (fun it => it.value_type = VType.userInput)

/-! ## Format Engine (`formatCurrency`, `formatPercentage`, `formatNumber`,
`formatValue`) -/
/-- `formatCurrency`: `Intl.NumberFormat('en-US', { style: 'currency',
currency: 'USD', minimumFractionDigits: 0, maximumFractionDigits: 0 })`.
Rounds to an integer (ties away from zero, which for the non-negative
amounts at issue coincides with `jsRound`) and renders `$` plus
comma-grouped digits, the sign in front. -/
def formatCurrency (amount : ℚ) : String :=
  let n : ℤ := if amount < 0 then -(jsRound (-amount)) else jsRound amount
  (if n < 0 then "-$" else "$") ++ commaGroup n.natAbs

/-- `formatPercentage`: multiply by 100, render with exactly two fractional
digits, append a percent sign. -/
def formatPercentage (value : ℚ) : String := toFixed2Str (value * 100) ++ "%"

/-- `formatNumber`: `Intl.NumberFormat('en-US', { minimumFractionDigits: 0,
maximumFractionDigits: 0 })` — comma-grouped integer. -/
def formatNumber (value : ℚ) : String :=
  let n : ℤ := if value < 0 then -(jsRound (-value)) else jsRound value
  (if n < 0 then "-" else "") ++ commaGroup n.natAbs

/-- Does `formatValue` treat this item as a percentage
(`item.format === 'percentage'` or the lower-cased name contains
`"rate"` or `"ratio"`)? -/
def percentLike (item : PropertyItem) : Bool :=
  item.format = some "percentage"
  || containsSub "rate" (toLowerStr item.name)
  || containsSub "ratio" (toLowerStr item.name)

/-- Does `formatValue` reach the currency branch for this item
(`item.format === 'currency'` or one of the currency keywords occurs in the
lower-cased name)? -/
def currencyLike (item : PropertyItem) : Bool :=
  item.format = some "currency"
  || containsSub "price" (toLowerStr item.name)
  || containsSub "cost" (toLowerStr item.name)
  || containsSub "value" (toLowerStr item.name)
  || containsSub "fee" (toLowerStr item.name)
  || containsSub "rent" (toLowerStr item.name)
  || containsSub "income" (toLowerStr item.name)
  || containsSub "expense" (toLowerStr item.name)
  || containsSub "tax" (toLowerStr item.name)
  || containsSub "insurance" (toLowerStr item.name)
  || containsSub "cashflow" (toLowerStr item.name)
  || containsSub "cash" (toLowerStr item.name)

/-- `formatValue(value, item)` for the numeric (or null/undefined) values
the page feeds it: `null` and `undefined` render as `'N/A'`; a
non-percentage value is first rounded with `Math.round`; then the
percentage / currency / plain-number branch renders it.  (The trailing
`value.toString()` branch of the source is only reachable for non-numeric
values, which never reach `formatValue` for the line items modelled here:
the Address item returns before formatting in `renderValue`.) -/
def formatValue (value : Option ℚ) (item : PropertyItem) : String :=
  match value with
  | none => "N/A"
  | some v =>
    let v : ℚ := if percentLike item then v else ((jsRound v : ℤ) : ℚ)
    if percentLike item then formatPercentage v
    else if currencyLike item then formatCurrency v
    else formatNumber v

/-! ## Name Normalizer -/
/-- Is the character kept by the regex `[^a-z0-9]` complement, i.e. a
lower-case ASCII letter or digit? -/
def isKeyChar (c : Char) : Bool :=
  ('a' ≤ c && c ≤ 'z') || ('0' ≤ c && c ≤ '9')

/-- One step of `.replace(/[^a-z0-9]/g, '_')`: every character other than a
lower-case letter or digit becomes one underscore. -/
def mapKeyChar (c : Char) : Char := if isKeyChar c then c else '_'

/-- `name.toLowerCase().replace(/[^a-z0-9]/g, '_')` — the first two stages
of the user-input key derivation in `getValue`. -/
def deriveRawKey (name : String) : String :=
  String.mk ((toLowerStr name).toList.map mapKeyChar)

/-- The final `.replace(/(?:^\w|[A-Z]|\b\w)/g, (letter, index) => letter.toLowerCase())`
stage.  On the output of `deriveRawKey` every character is a word
character, so the only regex match is the leading character, and the
replacement lower-cases it. -/
def lowerFirstWordChar (s : String) : String :=
  match s.toList with
  | [] => ""
  | c :: rest => String.mk (jsToLowerChar c :: rest)

/-- The derived (pre-override) user-input key computed inside `getValue`. -/
def jsDeriveKey (name : String) : String := lowerFirstWordChar (deriveRawKey name)

/-- `keyMappings` — the user-input override table of `getValue`. -/
def keyMappings : List (String × String) :=
  [ ("advertising_cost_per_vacancy", "advertising_cost_per_vacancy")
  , ("laundry___vending", "laundry_vending")
  , ("lawn___snow_maintenance", "lawn_maintenance")
  , ("water___sewer", "water_sewer")
  , ("deposit_s__made_with_offer", "deposit_with_offer")
  , ("interest_only_principle_amount", "interest_only_principle")
  , ("interest_only_interest_rate", "interest_only_rate")
  , ("other_monthly_financing_costs", "other_monthly_financing")
  , ("2nd_mtg_principle_amount", "second_mtg_principle")
  , ("2nd_mtg_interest_rate", "second_mtg_interest_rate")
  , ("2nd_mtg_amortization_period", "second_mtg_amortization")
  , ("1st_mtg_amortization_period", "first_mtg_amortization_period")
  , ("1st_mtg_cmhc_fee", "first_mtg_cmhc_fee")
  , ("annual_appreciation_rate", "annual_appreciation_rate") ]

/-- The canonical user-input key of a display name: the derived key,
overridden through `keyMappings` when a match exists
(`keyMappings[key] || key`; every override value is a non-empty string, so
`||` behaves as presence). -/
def userInputCanonicalKey (name : String) : String :=
  let key := jsDeriveKey name
  (alookup key keyMappings).getD key

/-- `calculatedKeyMappings` — the display-name override table for
calculated fields. -/
def calculatedKeyMappings : List (String × String) :=
  [ ("Real Purchase Price (RPP)", "Real Purchase Price")
  , ("1st Mtg Principle Borrowed", "First Mortgage Principle Borrowed")
  , ("1st Mtg Total Principle", "First Mortgage Total Principle")
  , ("1st Mtg Total Monthly Payment", "First Mortgage Total Monthly Payment")
  , ("2nd Mtg Total Monthly Payment", "Second Mortgage Total Monthly Payment")
  , ("Vacancy Loss", "Vacancy Loss Percentage")
  , ("1st Mortgage LTV", "First Mortgage LTV")
  , ("1st Mortgage LTPP", "First Mortgage LTPP")
  , ("2nd Mortgage LTV", "Second Mortgage LTV")
  , ("2nd Mortgage LTPP", "Second Mortgage LTPP")
  , ("Equity ROI (After 1 Year)", "Equity ROI after 1 Year")
  , ("Appreciation ROI (After 1 Year)", "Appreciation ROI after 1 Year")
  , ("Total ROI (After 1 Year)", "Total ROI after 1 Year")
  , ("Forced App. ROI (After 1 Year)", "Forced App ROI after 1 Year") ]

/-- The key used to read `property.calculated_data` for a calculated item
(`calculatedKeyMappings[item.name] || item.name`). -/
def calculatedLookupKey (name : String) : String :=
  (alookup name calculatedKeyMappings).getD name

/-! ## Value Resolver (`getValue`) -/
/-- `getValue(item, property)`.  The `try/catch` of the source can only
throw when `property` itself lacks the three mappings, which the model's
`Property` structure rules out, so the catch branch is unreachable here.
`console.log` calls are side effects with no bearing on the value. -/
def getValue (item : PropertyItem) (property : Property) : JSVal :=
  match item.value_type with
  | .apiData =>
    match item.name with
    | "Address" => .str (jsOrStr property.api_data.address "Address not available")
    | "Fair Market Value" =>
        match property.api_data.fair_market_value with
        | none => .undef
        | some q => .num q
    | "Number of Units" => .num (jsOrNum property.api_data.number_of_units 1)
    | "Offer Price" =>
        match property.api_data.offer_price with
        | none => .undef
        | some q => .num q
    | "1st Mtg Interest Rate" => .num (jsOrNum property.api_data.first_mtg_interest_rate 0)
    | "Property Taxes" => .num ((jsRound (jsOrNum property.api_data.property_taxes 0) : ℤ) : ℚ)
    | "Insurance" => .num (jsOrNum property.api_data.insurance 0)
    | "Association Fees" => .num (jsOrNum property.api_data.association_fees 0)
    | "Gross Rents" => .num (jsOrNum property.api_data.gross_rents 0)
    | "Transfer Tax" => .num (jsOrNum property.api_data.transfer_tax 0)
    | _ => .num 0
  | .userInput =>
      .num ((alookup (userInputCanonicalKey item.name) property.user_inputs).getD 0)
  | .calculated =>
      .num ((alookup (calculatedLookupKey item.name) property.calculated_data).getD 0)

-- Sanity checks of the key derivation against the source's behavior.

/-! ## Edit-mode conversion (the editable branches of `renderValue`) -/
/-- The percentage fields that `renderValue` multiplies by 100 for display
and divides by 100 on input (the explicit name list in the source). -/
def isPercentSpecialName (n : String) : Bool :=
  n = "Vacancy Rate" || n = "Management Rate" || n = "1st Mtg Interest Rate"
  || n = "2nd Mtg Interest Rate" || n = "1st Mtg CMHC Fee"
  || n = "Interest Only Interest Rate" || n = "Annual Appreciation Rate"

/-- The number shown in the edit box of a percentage item whose current raw
value is `inputValue`:
`parseFloat((inputValue * 100).toFixed(2))` for the special-named fields,
`parseFloat(inputValue.toFixed(2))` otherwise. -/
def percentEditValue (item : PropertyItem) (inputValue : ℚ) : ℚ :=
  if isPercentSpecialName item.name then jsToFixed2 (inputValue * 100)
  else jsToFixed2 inputValue

/-- `handleValueChange`'s number handling: `parseFloat(value) || 0` for a
numerically-valued edit (an empty or non-numeric edit, parsed to `NaN`, is
outside this model). -/
def handleValueChangeStore (v : ℚ) : ℚ := if v = 0 then 0 else v

/-- The raw value stored when the user types `text` in the edit box of a
percentage item: the `onChange` handler divides by 100 for the
special-named fields and then goes through `handleValueChange`. -/
def percentStore (item : PropertyItem) (text : ℚ) : ℚ :=
  handleValueChangeStore (if isPercentSpecialName item.name then text / 100 else text)

/-- `value ?? 0` at the end of `renderValue` applied to a `getValue`
result: `undefined` becomes `0`, a number passes through. (A calculated
item always produces a number.) -/
def jsNumOrZero : JSVal → ℚ
  | .num q => q
  | .str _ => 0
  | .undef => 0

/-- The display string `renderValue` produces for a non-editable
(Calculated) item: `formatValue(value ?? 0, item)` with
`value = getValue(item, property)`. -/
def renderCalculated (item : PropertyItem) (property : Property) : String :=
  formatValue (some (jsNumOrZero (getValue item property))) item

/-- The key under which `handleValueChange` records a pending edit:
`itemName.toLowerCase().replace(/ /g, '_')` — only spaces become
underscores. -/
def pendingEditKey (itemName : String) : String :=
  String.mk ((toLowerStr itemName).toList.map (fun c => if c = ' ' then '_' else c))

/-! ## Recalculation payload (`collectCurrentValues`) -/
/-- The API-data entries written first into `currentValues`, in the
insertion order of the object literal. -/
def sourcedEntries (p : Property) : List (String × JSVal) :=
  [ ("address", .str (jsOrStr p.api_data.address ""))
  , ("fair_market_value", (p.api_data.fair_market_value.map JSVal.num).getD .undef)
  , ("number_of_units", (p.api_data.number_of_units.map JSVal.num).getD .undef)
  , ("offer_price", (p.api_data.offer_price.map JSVal.num).getD .undef)
  , ("transfer_tax", (p.api_data.transfer_tax.map JSVal.num).getD .undef)
  , ("first_mtg_interest_rate", (p.api_data.first_mtg_interest_rate.map JSVal.num).getD .undef)
  , ("gross_rents", (p.api_data.gross_rents.map JSVal.num).getD .undef)
  , ("property_taxes", (p.api_data.property_taxes.map JSVal.num).getD .undef)
  , ("insurance", (p.api_data.insurance.map JSVal.num).getD .undef)
  , ("association_fees", (p.api_data.association_fees.map JSVal.num).getD .undef) ]

/-- `userInputMappings` of `collectCurrentValues`, in declaration order
(each canonical key maps to itself). -/
def userInputMappings : List (String × String) :=
  [ ("vacancy_rate", "vacancy_rate")
  , ("management_rate", "management_rate")
  , ("advertising_cost_per_vacancy", "advertising_cost_per_vacancy")
  , ("annual_appreciation_rate", "annual_appreciation_rate")
  , ("repairs", "repairs")
  , ("repairs_contingency", "repairs_contingency")
  , ("lender_fee", "lender_fee")
  , ("broker_fee", "broker_fee")
  , ("environmentals", "environmentals")
  , ("inspections", "inspections")
  , ("appraisals", "appraisals")
  , ("misc", "misc")
  , ("legal", "legal")
  , ("first_mtg_amortization_period", "first_mtg_amortization_period")
  , ("first_mtg_cmhc_fee", "first_mtg_cmhc_fee")
  , ("second_mtg_principle", "second_mtg_principle")
  , ("second_mtg_interest_rate", "second_mtg_interest_rate")
  , ("second_mtg_amortization", "second_mtg_amortization")
  , ("interest_only_principle", "interest_only_principle")
  , ("interest_only_rate", "interest_only_rate")
  , ("other_monthly_financing", "other_monthly_financing")
  , ("parking", "parking")
  , ("storage", "storage")
  , ("laundry_vending", "laundry_vending")
  , ("other_income", "other_income")
  , ("electricity", "electricity")
  , ("gas", "gas")
  , ("lawn_maintenance", "lawn_maintenance")
  , ("water_sewer", "water_sewer")
  , ("cable", "cable")
  , ("caretaking", "caretaking")
  , ("trash_removal", "trash_removal")
  , ("miscellaneous", "miscellaneous")
  , ("common_area_maintenance", "common_area_maintenance")
  , ("capital_improvements", "capital_improvements")
  , ("accounting", "accounting")
  , ("bad_debts", "bad_debts")
  , ("other_expenses", "other_expenses")
  , ("deposit_with_offer", "deposit_with_offer")
  , ("less_pro_ration_of_rents", "less_pro_ration_of_rents") ]

/-- `collectCurrentValues` for a loaded property `p` and the current
pending edits `mv` (`modifiedValues`): the API-data entries first, then for
each `(key, mappedKey)` of `userInputMappings` the entry
`currentValues[key] = modifiedValues[key] ?? property.user_inputs[mappedKey] ?? 0`.
All 50 keys are distinct, so modelling the object by an append of entry
lists in insertion order is faithful.  (When no property is loaded the
source returns `{}`, modelled by the caller never invoking this.) -/
def collectCurrentValues (p : Property) (mv : List (String × ℚ)) :
    List (String × JSVal) :=
  sourcedEntries p ++
    userInputMappings.map (fun kv =>
      (kv.1, JSVal.num ((alookup kv.1 mv).getD ((alookup kv.2 p.user_inputs).getD 0))))

/-- Number of entries of the payload carrying the given key. -/
def countKey (k : String) (l : List (String × JSVal)) : ℕ :=
  (l.filter (fun e => e.1 = k)).length

/-! ## Edit/Recalculate Controller state -/
/-- The page state relevant to the controller: the active property
identifier (`router.query.id`), the current snapshot, the loading/
recalculating flags, the error message and the pending edits. -/
structure PageState where
  activeId : String
  propertyDetail : Option PropertyDetailResp
  isLoading : Bool
  isRecalculating : Bool
  error : Option String
  modifiedValues : List (String × ℚ)
deriving DecidableEq

/-- `handleRecalculate`, from the submission up to the settled request:
the `try` block posts the payload and on success stores the response
snapshot wholesale (`setPropertyDetail(response.data)`); the `catch` sets
the error message; the `finally` resets `isRecalculating`.  Nothing else
is touched: in particular `modifiedValues` is left as it was in both
outcomes. -/
def handleRecalculate (st : PageState)
    (result : Except String PropertyDetailResp) : PageState :=
  match result with
  | .ok resp => { st with propertyDetail := some resp, isRecalculating := false }
  | .error _ =>
      { st with error := some "Failed to recalculate values", isRecalculating := false }

/-- The continuation of `handleRecalculate` running when the response
arrives: `submittedId` is the property identifier that was active when the
request was posted.  The source performs no staleness check — the
parameter is unused and the response is applied to whatever state is
current. -/
def recalcResponseArrives (st : PageState) (_submittedId : String)
    (result : Except String PropertyDetailResp) : PageState :=
  handleRecalculate st result

/-- The `useEffect` on `[id]` after the route identifier changes to
`newId`, run to completion of `fetchPropertyDetail`: sets loading, clears
the error, fetches, stores the fetched snapshot (or the error message).
`modifiedValues` is never written. -/
def idChangeEffect (st : PageState) (newId : String)
    (fetchResult : Except String PropertyDetailResp) : PageState :=
  match fetchResult with
  | .ok d =>
      { st with activeId := newId, propertyDetail := some d,
                isLoading := false, error := none }
  | .error m =>
      { st with activeId := newId, isLoading := false, error := some m }

/-! ## Wire-format case converters (`mypage.tsx`) -/
/-- One pass of `key.replace(/_([a-z])/g, (_, letter) => letter.toUpperCase())`:
scanning left to right, an underscore directly followed by a lower-case
letter is replaced by that letter upper-cased; other characters pass
through. -/
def snakeToCamelChars : List Char → List Char
  | [] => []
  | '_' :: c :: rest =>
      if 'a' ≤ c ∧ c ≤ 'z' then Char.ofNat (c.toNat - 32) :: snakeToCamelChars rest
      else '_' :: snakeToCamelChars (c :: rest)
  | c :: rest => c :: snakeToCamelChars rest

/-- One pass of `key.replace(/[A-Z]/g, letter => `_${letter.toLowerCase()}`)`:
every upper-case letter becomes an underscore plus its lower-case form. -/
def camelToSnakeChars : List Char → List Char
  | [] => []
  | c :: rest =>
      if 'A' ≤ c ∧ c ≤ 'Z' then '_' :: Char.ofNat (c.toNat + 32) :: camelToSnakeChars rest
      else c :: camelToSnakeChars rest

/-- The key conversion of `convertSnakeToCamel`. -/
def snakeToCamelKey (s : String) : String := String.mk (snakeToCamelChars s.toList)

/-- The key conversion of `convertCamelToSnake`. -/
def camelToSnakeKey (s : String) : String := String.mk (camelToSnakeChars s.toList)

/- A JSON-like value as the converters walk it: scalars (numbers, strings,
null) pass through, objects have their keys converted recursively, arrays
are mapped over.  (Mutual presentation of objects and arrays keeps the
recursion structural.) -/
mutual
inductive MJson where
  | num : ℚ → MJson
  | str : String → MJson
  | jnull : MJson
  | obj : MFields → MJson
  | arr : MElems → MJson
deriving DecidableEq
inductive MFields where
  | nil : MFields
  | cons : String → MJson → MFields → MFields
deriving DecidableEq
inductive MElems where
  | nil : MElems
  | cons : MJson → MElems → MElems
deriving DecidableEq
end

/- `convertSnakeToCamel` and its field/array walkers. -/
mutual
def convertSnakeToCamel : MJson → MJson
  | .num q => .num q
  | .str s => .str s
  | .jnull => .jnull
  | .obj f => .obj (convertSnakeToCamelFields f)
  | .arr e => .arr (convertSnakeToCamelElems e)
def convertSnakeToCamelFields : MFields → MFields
  | .nil => .nil
  | .cons k v rest =>
      .cons (snakeToCamelKey k) (convertSnakeToCamel v) (convertSnakeToCamelFields rest)
def convertSnakeToCamelElems : MElems → MElems
  | .nil => .nil
  | .cons v rest => .cons (convertSnakeToCamel v) (convertSnakeToCamelElems rest)
end

/- `convertCamelToSnake` and its field/array walkers. -/
mutual
def convertCamelToSnake : MJson → MJson
  | .num q => .num q
  | .str s => .str s
  | .jnull => .jnull
  | .obj f => .obj (convertCamelToSnakeFields f)
  | .arr e => .arr (convertCamelToSnakeElems e)
def convertCamelToSnakeFields : MFields → MFields
  | .nil => .nil
  | .cons k v rest =>
      .cons (camelToSnakeKey k) (convertCamelToSnake v) (convertCamelToSnakeFields rest)
def convertCamelToSnakeElems : MElems → MElems
  | .nil => .nil
  | .cons v rest => .cons (convertCamelToSnake v) (convertCamelToSnakeElems rest)
end

/-- The canonical snake-style keys the Field Registry addresses: the ten
API-data keys and the forty user-input keys of the recalculation payload. -/
def registryCanonicalKeys : List String :=
  (sourcedEntries ⟨⟨none, none, none, none, none, none, none, none, none, none⟩,
      [], [], 0⟩).map Prod.fst
    ++ userInputMappings.map Prod.fst

/- Does every key of the mapping (recursively) come from
`registryCanonicalKeys`? -/
mutual
def goodKeysJ : MJson → Bool
  | .num _ => true
  | .str _ => true
  | .jnull => true
  | .obj f => goodKeysF f
  | .arr e => goodKeysE e
def goodKeysF : MFields → Bool
  | .nil => true
  | .cons k v rest =>
      (registryCanonicalKeys.contains k) && goodKeysJ v && goodKeysF rest
def goodKeysE : MElems → Bool
  | .nil => true
  | .cons v rest => goodKeysJ v && goodKeysE rest
end

/-! ## The spec's normalization algorithm, for comparison (claim C8) -/
/-- Modelled from the spec's words (section 4.1): lowercase the display
name, replace every run of non-alphanumeric characters with a single
underscore, trim leading and trailing underscores — the derivation step as
the spec describes it (the source instead replaces each character
separately and does not trim). -/
def specDeriveKey (name : String) : String :=
  let collapsed := (toLowerStr name).toList.foldr
    (fun c acc =>
      if isKeyChar c then c :: acc
      else if acc.head? = some '_' then acc else '_' :: acc)
    []
  let trimmed := (collapsed.dropWhile (fun c => c = '_')).reverse
    |>.dropWhile (fun c => c = '_') |>.reverse
  String.mk trimmed

/-- The spec's full normalization for user-input provenance: derive, then
substitute the override entry when one matches. -/
def specNormalizeUserInput (name : String) : String :=
  let key := specDeriveKey name
  (alookup key keyMappings).getD key

/-- The derivation step as the counterexample forces it to be amended:
lowercase, then replace every single non-alphanumeric character with one
underscore, with no run-collapsing and no trimming. -/
def amendedDeriveKey (name : String) : String :=
  String.mk ((toLowerStr name).toList.map (fun c => if isKeyChar c then c else '_'))

/-! ## Concrete fixtures used by the closed theorems -/
/-- An empty `api_data` record (every field absent). -/
def emptyApi : ApiData := ⟨none, none, none, none, none, none, none, none, none, none⟩

/-- A property with no stored values at all. -/
def emptyProperty : Property := ⟨emptyApi, [], [], 0⟩

/-- A snapshot response holding one (empty) property. -/
def snapshotA : PropertyDetailResp := ⟨[emptyProperty]⟩

/-- A distinct snapshot response (no properties). -/
def snapshotB : PropertyDetailResp := ⟨[]⟩

/-! ## Claim C3 -/
/-- A page state at property P1 with one pending edit recorded. -/
def stateWithEdit : PageState :=
  { activeId := "P1", propertyDetail := none, isLoading := false,
    isRecalculating := true, error := none, modifiedValues := [("repairs", 5)] }

/-! ## Claim C4 -/
/-- The state after navigating to property P2, its snapshot loaded. -/
def stateAtP2 : PageState :=
  { activeId := "P2", propertyDetail := some snapshotB, isLoading := false,
    isRecalculating := true, error := none, modifiedValues := [] }

/-! ## Claim C5 -/
/-- A state at property P1 with a pending edit on the vacancy rate. -/
def stateEditedAtP1 : PageState :=
  { activeId := "P1", propertyDetail := some snapshotA, isLoading := false,
    isRecalculating := false, error := none,
    modifiedValues := [("vacancy_rate", 1/20)] }

/-! ## Read-path composition and remaining fixtures -/
/-- The spec's read path, Value Resolver followed by the Format Engine:
resolve the item against the snapshot and format the result for display
(strings — the Address special case — pass through unformatted, exactly as
`renderValue` returns the address before formatting). -/
def resolveFormat (item : PropertyItem) (p : Property) : String :=
  match getValue item p with
  | .str s => s
  | .num q => formatValue (some q) item
  | .undef => formatValue none item

/-- The "Fair Market Value" registry item. -/
def fmvItem : PropertyItem := mkItem "Fair Market Value" .apiData "Property Info" "currency"

/-- The "Net Operating Income" registry item (Calculated). -/
def noiItem : PropertyItem :=
  mkItem "Net Operating Income" .calculated "Net Operating Income (Annual)" "currency"

/-- The "Vacancy Rate" registry item (UserInput, percentage). -/
def vacancyItem : PropertyItem := mkItem "Vacancy Rate" .userInput "Property Info" "percentage"

/-- The "Less Pro-Ration of Rents" registry item: declared with explicit
`currency` format, but its lower-cased name contains the substring
`"ratio"` (inside "pro-ration"). -/
def proRationItem : PropertyItem :=
  mkItem "Less Pro-Ration of Rents" .userInput "Cash Requirements" "currency"

/-- A property whose sourced fair market value is 450000. -/
def propertyFMV : Property :=
  { emptyProperty with api_data := { emptyApi with fair_market_value := some 450000 } }

/-- A property storing a vacancy-rate user input of 0.04. -/
def propertyVac : Property :=
  { emptyProperty with user_inputs := [("vacancy_rate", 1/25)] }

/-- Pending edits overriding the vacancy rate with 0.05. -/
def pendingVac : List (String × ℚ) := [("vacancy_rate", 1/20)]

/-- A concrete nested mapping over registry canonical keys, for the
round-trip witness. -/
def wireSample : MJson :=
  .obj (.cons "vacancy_rate" (.num (1/20))
    (.cons "gross_rents" (.arr (.cons (.num 1200) (.cons .jnull .nil)))
      (.cons "other_income"
        (.obj (.cons "management_rate" (.str "n/a") .nil)) .nil)))

/-! ## Theorems -/

theorem ratFloor_eq (q : ℚ) : ratFloor q = ⌊q⌋ := by
  rw [Rat.floor_def]; rfl

theorem jsRound_eq (q : ℚ) : jsRound q = round q := by
  rw [round_eq, jsRound, ratFloor_eq]

example : allItems.length = 92 := by decide

example : userInputItems.length = 42 := by decide

example : jsDeriveKey "Laundry / Vending" = "laundry___vending" := by decide

example : userInputCanonicalKey "Laundry / Vending" = "laundry_vending" := by decide

example : userInputCanonicalKey "Deposit(s) made with Offer" = "deposit_with_offer" := by decide

example : userInputCanonicalKey "2nd Mtg Principle Amount" = "second_mtg_principle" := by decide

example : userInputCanonicalKey "Vacancy Rate" = "vacancy_rate" := by decide

example : snakeToCamelKey "vacancy_rate" = "vacancyRate" := by decide

example : camelToSnakeKey "vacancyRate" = "vacancy_rate" := by decide

example : specDeriveKey "Lawn / Snow Maintenance" = "lawn_snow_maintenance" := by decide

example : specNormalizeUserInput "Lawn / Snow Maintenance" = "lawn_snow_maintenance" := by decide

/-! ## Claim C1 -/
/-- C1: resolving a Sourced line item whose display name is not one of the
recognized sourced fields does NOT fail with an error naming the item — for
every snapshot, `getValue` falls through the switch to its default branch
and silently returns the number 0.  This evaluates the code at the failing
input of the claim: the spec (section 9) itself flags the zero default as a
latent bug, so the claim describes the intended behavior and the code
contradicts it. -/
theorem getValue_unknown_sourced_returns_zero (p : Property) :
    getValue ⟨"Zoning Category", VType.apiData, "Property Info", none⟩ p
      = JSVal.num 0 := rfl

/-- C3 counterexample: after a SUCCESSFUL recalculation the set of pending
edits is not empty — the snapshot is replaced by the response, but
`modifiedValues` still holds the edit recorded before the submission,
contradicting the claim that pending edits become empty on success. -/
theorem recalc_success_keeps_pending_edits_cx :
    (handleRecalculate stateWithEdit (Except.ok snapshotA)).propertyDetail
        = some snapshotA
      ∧ (handleRecalculate stateWithEdit (Except.ok snapshotA)).modifiedValues
        = [("repairs", 5)]
      ∧ [(("repairs" : String), (5 : ℚ))] ≠ [] := by
  exact ⟨rfl, rfl, by decide⟩

/-- C3 (amended): for every recalculation submission, success replaces the
current snapshot wholesale by the response while leaving the pending edits
unchanged (they are NOT cleared), and failure leaves both the snapshot and
the pending edits exactly as they were while surfacing the failure
message. -/
theorem handleRecalculate_transitions (st : PageState)
    (resp : PropertyDetailResp) (msg : String) :
    handleRecalculate st (Except.ok resp)
        = { st with propertyDetail := some resp, isRecalculating := false }
      ∧ handleRecalculate st (Except.error msg)
        = { st with error := some "Failed to recalculate values",
                    isRecalculating := false } :=
  ⟨rfl, rfl⟩

/-- C4: a recalculation response submitted while P1 was active is NOT
ignored when P2 is active at arrival time — the handler performs no
staleness check, so the late response overwrites P2's displayed snapshot.
Evaluates the code at the claim's failing input: with P2 active
(`activeId ≠ "P1"`), the arrival of P1's response replaces P2's snapshot
with P1's, changing the displayed snapshot. -/
theorem stale_recalc_response_overwrites_active_property :
    stateAtP2.activeId ≠ "P1"
      ∧ (recalcResponseArrives stateAtP2 "P1" (Except.ok snapshotA)).propertyDetail
        = some snapshotA
      ∧ some snapshotA ≠ stateAtP2.propertyDetail := by
  exact ⟨by decide, rfl, by decide⟩

/-- C5: the pending edits are NOT reset when the active property identifier
changes — the id-change effect refetches the snapshot but never writes
`modifiedValues`, so the edit recorded while P1 was active is still present
(and hence still consulted by value resolution and payload building) after
P2 becomes the active property, contradicting the claimed invariant. -/
theorem idChange_preserves_pending_edits :
    (idChangeEffect stateEditedAtP1 "P2" (Except.ok snapshotB)).activeId = "P2"
      ∧ (idChangeEffect stateEditedAtP1 "P2" (Except.ok snapshotB)).modifiedValues
        = [("vacancy_rate", 1/20)]
      ∧ [(("vacancy_rate" : String), (1/20 : ℚ))] ≠ [] := by
  exact ⟨rfl, rfl, by decide⟩

/-! ## Claim C9 -/
/-- C9 counterexample: not every Currency field of the registry formats to
a US-dollar string — the "Less Pro-Ration of Rents" item carries the
explicit `currency` format, yet its lower-cased name contains `"ratio"`
(inside "pro-ration"), and `formatValue` checks the rate/ratio name
heuristics before the currency format, so the raw value 100 renders as the
percentage string `10000.00%` instead of the dollar string `$100` the
claim requires. -/
theorem currency_claim_ratio_divert_cx :
    proRationItem ∈ allItems
      ∧ proRationItem.format = some "currency"
      ∧ formatValue (some 100) proRationItem = "10000.00%"
      ∧ formatCurrency ((jsRound (100 : ℚ) : ℤ) : ℚ) = "$100"
      ∧ ("10000.00%" : String) ≠ "$100" := by
  exact ⟨by decide, rfl, by decide, by decide, by decide⟩

/-- C9 (amended): for every Currency field whose display name does not
contain the `"rate"` or `"ratio"` keywords (those heuristics take
precedence over the explicit format and divert the field to the percentage
branch), formatting a numeric raw value first rounds it to the nearest
integer (`Math.round`, the identity on integral values) and then renders
the locale-formatted US-dollar string with zero fractional digits; in
particular, for every snapshot whose `sourcedFacts.fair_market_value` is
450000, resolving and formatting the "Fair Market Value" item yields
exactly the string of a dollar sign followed by the comma-grouped digits
450,000. -/
theorem currency_formatting (item : PropertyItem) (v : ℚ)
    (hfmt : item.format = some "currency")
    (hr : containsSub "rate" (toLowerStr item.name) = false)
    (hro : containsSub "ratio" (toLowerStr item.name) = false) :
    formatValue (some v) item = formatCurrency ((jsRound v : ℤ) : ℚ)
      ∧ (∀ p : Property, p.api_data.fair_market_value = some 450000 →
          resolveFormat fmvItem p = "$450,000") := by
  constructor
  · have hp : percentLike item = false := by
      simp [percentLike, hfmt, hr, hro]
    have hc : currencyLike item = true := by
      simp [currencyLike, hfmt]
    simp [formatValue, hp, hc]
  · intro p h
    rcases p with ⟨⟨a, fmv, nu, op, fr, pt, ins, af, gr, tt⟩, ui, cd, cf⟩
    have h2 : fmv = some 450000 := h
    subst h2
    rfl

/-- C9 witness: the theorem applied to the "Fair Market Value" item at the
non-integral raw value 449.9, which rounds to 450, and to the concrete
snapshot carrying fair market value 450000. -/
theorem currency_formatting_witness :
    fmvItem.format = some "currency"
      ∧ formatValue (some (4499/10)) fmvItem
        = formatCurrency ((jsRound (4499/10 : ℚ) : ℤ) : ℚ)
      ∧ formatCurrency ((jsRound (4499/10 : ℚ) : ℤ) : ℚ) = "$450"
      ∧ resolveFormat fmvItem propertyFMV = "$450,000" :=
  ⟨rfl,
   (currency_formatting fmvItem (4499/10) rfl (by decide) (by decide)).1,
   by decide,
   (currency_formatting fmvItem (4499/10) rfl (by decide) (by decide)).2
     propertyFMV rfl⟩

/-! ## Claim C10 -/
/-- C10 counterexample: a line item whose value is missing from the
snapshot does NOT render as the not-available marker — the render path for
the Calculated item "Net Operating Income" over a snapshot with no
calculated data produces the zero rendering of a dollar sign followed by 0,
the same string a stored value of exactly zero produces, so a missing value
is not distinguishable in the display from a zero value. -/
theorem missing_value_renders_zero_cx :
    renderCalculated noiItem emptyProperty = "$0"
      ∧ renderCalculated noiItem
          { emptyProperty with calculated_data := [("Net Operating Income", 0)] }
        = "$0"
      ∧ "$0" ≠ "N/A" :=
  ⟨rfl, rfl, by decide⟩

/-- C10 (amended): `formatValue` itself maps a null/undefined value to the
explicit `'N/A'` marker for every line item, but the render path never
lets a missing value reach it: `getValue` defaults an absent calculated key
to 0 and `renderValue` coalesces with `?? 0`, so a line item whose value is
missing renders exactly as a stored zero does. -/
theorem formatValue_null_marker :
    (∀ item : PropertyItem, formatValue none item = "N/A")
      ∧ (∀ (item : PropertyItem) (p : Property),
          item.value_type = VType.calculated →
          alookup (calculatedLookupKey item.name) p.calculated_data = none →
          renderCalculated item p = formatValue (some 0) item) := by
  constructor
  · intro item; rfl
  · intro item p hvt hlk
    rcases item with ⟨n, vt, sec, fmt⟩
    have h2 : vt = VType.calculated := hvt
    subst h2
    simp only [renderCalculated, getValue]
    rw [hlk]
    rfl

/-- C10 witness: the amended theorem applied to the "Net Operating Income"
item and the empty snapshot. -/
theorem formatValue_null_marker_witness :
    formatValue none noiItem = "N/A"
      ∧ noiItem.value_type = VType.calculated
      ∧ alookup (calculatedLookupKey noiItem.name) emptyProperty.calculated_data = none
      ∧ renderCalculated noiItem emptyProperty = formatValue (some 0) noiItem :=
  ⟨formatValue_null_marker.1 noiItem, rfl, rfl,
   formatValue_null_marker.2 noiItem emptyProperty rfl rfl⟩

/-! ## Claim C7 -/
/-- `parseFloat(v) || 0` is the identity on the numeric edits modelled
here (zero falls through to the default zero). -/
theorem handleValueChangeStore_id (v : ℚ) : handleValueChangeStore v = v := by
  by_cases h : v = 0 <;> simp [handleValueChangeStore, h]

/-- Every editable (API Data or user input) percentage item of the
registry is in the explicit name list that `renderValue` converts by a
factor of 100 — so the fraction/percent conversion applies to every
editable Percentage field. -/
theorem editable_percentage_special :
    ∀ it ∈ allItems, it.format = some "percentage" →
      (it.value_type = VType.apiData ∨ it.value_type = VType.userInput) →
      isPercentSpecialName it.name = true := by decide

/-- C7: for every editable Percentage field of the registry, the raw
stored representation is the fraction and the edit-mode representation is
the whole-number percent, and the two conversions are mutually inverse on
the read and write paths (up to the two-decimal rounding of `toFixed(2)`,
i.e. exactly on values with at most two percent decimals): the raw value
0.055 shows as the edit-mode number 5.50, and an edit of 6 stores the raw
value 0.06. -/
theorem percentage_edit_conversions (item : PropertyItem)
    (hmem : item ∈ allItems) (hfmt : item.format = some "percentage")
    (hed : item.value_type = VType.apiData ∨ item.value_type = VType.userInput) :
    percentEditValue item (55/1000) = 11/2
      ∧ percentStore item 6 = 3/50
      ∧ (∀ r : ℚ, (∃ n : ℤ, r * 10000 = n) →
          percentStore item (percentEditValue item r) = r)
      ∧ (∀ e : ℚ, (∃ m : ℤ, e * 100 = m) →
          percentEditValue item (percentStore item e) = e) := by
  have hsp : isPercentSpecialName item.name = true :=
    editable_percentage_special item hmem hfmt hed
  refine ⟨?_, ?_, ?_, ?_⟩
  · simp only [percentEditValue, hsp, if_true]
    decide
  · simp only [percentStore, hsp, if_true]
    decide
  · rintro r ⟨n, hn⟩
    have hr : r = (n : ℚ) / 10000 := by
      rw [eq_div_iff (by norm_num)]; exact hn
    rw [hr]
    simp only [percentEditValue, percentStore, hsp, if_true,
      handleValueChangeStore_id, jsToFixed2]
    rw [show ((n : ℚ) / 10000 * 100) * 100 = (n : ℚ) by field_simp; ring,
      jsRound_eq, round_intCast, div_div]
    norm_num
  · rintro e ⟨m, hm⟩
    have he : e = (m : ℚ) / 100 := by
      rw [eq_div_iff (by norm_num)]; exact hm
    rw [he]
    simp only [percentStore, percentEditValue, hsp, if_true,
      handleValueChangeStore_id, jsToFixed2]
    rw [show ((m : ℚ) / 100) / 100 * 100 * 100 = (m : ℚ) by field_simp; ring,
      jsRound_eq, round_intCast]

/-- C7 witness: the theorem applied to the "Vacancy Rate" item, its
hypotheses discharged concretely; raw 0.055 shows as 5.50 and an edit of 6
stores 0.06. -/
theorem percentage_edit_conversions_witness :
    vacancyItem ∈ allItems
      ∧ vacancyItem.format = some "percentage"
      ∧ (vacancyItem.value_type = VType.apiData
          ∨ vacancyItem.value_type = VType.userInput)
      ∧ percentEditValue vacancyItem (55/1000) = 11/2
      ∧ percentStore vacancyItem 6 = 3/50 :=
  ⟨by decide, rfl, Or.inr rfl,
   (percentage_edit_conversions vacancyItem (by decide) rfl (Or.inr rfl)).1,
   (percentage_edit_conversions vacancyItem (by decide) rfl (Or.inr rfl)).2.1⟩

/-! ## Claim C8 -/
/-- C8 counterexample: at the display name "Lawn / Snow Maintenance" the
spec's algorithm (collapse runs of non-alphanumerics to one underscore,
trim, then override) produces a different canonical key than the code:
run-collapsing yields a key the override table (whose entries are written
in the code's one-underscore-per-character form) does not match, so the
spec algorithm returns the derived key unchanged, while the code's
derivation matches the override and returns the override key. -/
theorem normalize_spec_algorithm_cx :
    specNormalizeUserInput "Lawn / Snow Maintenance" = "lawn_snow_maintenance"
      ∧ userInputCanonicalKey "Lawn / Snow Maintenance" = "lawn_maintenance"
      ∧ ("lawn_snow_maintenance" : String) ≠ "lawn_maintenance" := by
  exact ⟨by decide, by decide, by decide⟩

/-- Character comparison is numeric comparison of code points. -/
theorem charLe_iff (a b : Char) : a ≤ b ↔ a.toNat ≤ b.toNat := Iff.rfl

/-- Lower-casing fixes every character produced by the key-derivation map
(lower-case letters, digits, and the underscore). -/
theorem jsToLowerChar_mapKeyChar (c : Char) :
    jsToLowerChar (mapKeyChar c) = mapKeyChar c := by
  unfold mapKeyChar
  by_cases h : isKeyChar c = true
  · simp only [h, if_true]
    unfold jsToLowerChar
    rw [if_neg]
    rintro ⟨h1, h2⟩
    rw [charLe_iff] at h1 h2
    have e1 : ('A' : Char).toNat = 65 := rfl
    have e2 : ('Z' : Char).toNat = 90 := rfl
    rw [e1] at h1; rw [e2] at h2
    rcases Bool.or_eq_true_iff.mp h with h3 | h3 <;>
    · obtain ⟨h4, h5⟩ := Bool.and_eq_true_iff.mp h3
      rw [decide_eq_true_eq, charLe_iff] at h4 h5
      revert h4 h5
      simp only [show ('a' : Char).toNat = 97 from rfl,
        show ('z' : Char).toNat = 122 from rfl,
        show ('0' : Char).toNat = 48 from rfl,
        show ('9' : Char).toNat = 57 from rfl]
      omega
  · rw [if_neg h]
    decide

/-- The trailing word-boundary replace of the source's key derivation is
the identity on derived keys: every derived character is a word character,
so only the leading character is matched, and its replacement (its own
lower-case) does not change it. -/
theorem lowerFirstWordChar_fixes (l : List Char) :
    lowerFirstWordChar (String.mk (l.map mapKeyChar)) = String.mk (l.map mapKeyChar) := by
  cases l with
  | nil => rfl
  | cons c rest =>
      show String.mk (jsToLowerChar (mapKeyChar c) :: rest.map mapKeyChar)
        = String.mk (mapKeyChar c :: rest.map mapKeyChar)
      rw [jsToLowerChar_mapKeyChar]

/-- C8 (amended): for every display name, the canonical user-input key the
code computes equals the two-stage pipeline with the derivation step
amended to: lowercase the name, replace every single non-alphanumeric
character with one underscore (no run-collapsing and no trimming), then
substitute the per-provenance override entry when one matches, otherwise
keep the derived key unchanged. -/
theorem normalize_charwise_override (name : String) :
    userInputCanonicalKey name
      = (alookup (amendedDeriveKey name) keyMappings).getD (amendedDeriveKey name) := by
  have hkey : jsDeriveKey name = amendedDeriveKey name := by
    unfold jsDeriveKey deriveRawKey amendedDeriveKey
    exact lowerFirstWordChar_fixes (toLowerStr name).toList
  simp only [userInputCanonicalKey, hkey]

/-! ## Claim C2 -/
/-- Mapping the user-input entry builder over a key/mapped-key table
preserves the key column. -/
theorem keys_of_mapped (l : List (String × String)) (mv ui : List (String × ℚ)) :
    (l.map (fun kv =>
        (kv.1, JSVal.num ((alookup kv.1 mv).getD ((alookup kv.2 ui).getD 0))))).map
      Prod.fst = l.map Prod.fst := by
  induction l with
  | nil => rfl
  | cons kv rest ih => simp [ih]

/-- Looking up a key in the built user-input entries is looking it up in
the table and building the entry from its mapped key. -/
theorem alookup_mapped (l : List (String × String)) (mv ui : List (String × ℚ))
    (k : String) :
    alookup k (l.map (fun kv =>
        (kv.1, JSVal.num ((alookup kv.1 mv).getD ((alookup kv.2 ui).getD 0)))))
      = (alookup k l).map
          (fun mk => JSVal.num ((alookup k mv).getD ((alookup mk ui).getD 0))) := by
  induction l with
  | nil => rfl
  | cons kv rest ih =>
      rcases kv with ⟨k', m⟩
      by_cases h : k' = k
      · subst h; simp [alookup]
      · simp [alookup, h, ih]

/-- A lookup skips a prefix that does not carry the key. -/
theorem alookup_append_right (k : String) (l1 l2 : List (String × JSVal))
    (h : ∀ e ∈ l1, e.1 ≠ k) : alookup k (l1 ++ l2) = alookup k l2 := by
  induction l1 with
  | nil => rfl
  | cons e rest ih =>
      rcases e with ⟨k', v⟩
      have hne : k' ≠ k := h ⟨k', v⟩ (by simp)
      simp only [List.cons_append, alookup, if_neg hne]
      exact ih (fun e he => h e (by simp [he]))

/-- `countKey` counts occurrences in the key column. -/
theorem countKey_eq (k : String) (l : List (String × JSVal)) :
    countKey k l = (l.map Prod.fst).count k := by
  induction l with
  | nil => rfl
  | cons e rest ih =>
      rcases e with ⟨k', v⟩
      by_cases h : k' = k
      · subst h; simp [countKey, List.count_cons, List.filter_cons] at ih ⊢
        omega
      · simp [countKey, List.count_cons, List.filter_cons, h] at ih ⊢
        simpa [h] using ih

/-- The key column of the sourced prefix of the payload. -/
theorem sourced_keys_eq (p : Property) :
    (sourcedEntries p).map Prod.fst
      = [ "address", "fair_market_value", "number_of_units", "offer_price",
          "transfer_tax", "first_mtg_interest_rate", "gross_rents",
          "property_taxes", "insurance", "association_fees" ] := rfl

/-- The key column of the full recalculation payload is the fixed list of
registry canonical keys, for every snapshot and every set of pending
edits. -/
theorem payload_keys (p : Property) (mv : List (String × ℚ)) :
    (collectCurrentValues p mv).map Prod.fst = registryCanonicalKeys := by
  unfold collectCurrentValues registryCanonicalKeys
  rw [List.map_append, keys_of_mapped]
  rfl

/-- Every declared UserInput item's canonical key appears in the payload's
user-input table, maps to itself there, is absent from the sourced prefix,
and occurs exactly once among all payload keys. -/
theorem userInput_key_facts :
    ∀ it ∈ userInputItems,
      userInputCanonicalKey it.name ∈ userInputMappings.map Prod.fst
        ∧ alookup (userInputCanonicalKey it.name) userInputMappings
            = some (userInputCanonicalKey it.name)
        ∧ (userInputCanonicalKey it.name)
            ∉ [ "address", "fair_market_value", "number_of_units", "offer_price",
                "transfer_tax", "first_mtg_interest_rate", "gross_rents",
                "property_taxes", "insurance", "association_fees" ]
        ∧ registryCanonicalKeys.count (userInputCanonicalKey it.name) = 1 := by
  decide

/-- C2: for every snapshot and every set of pending edits, the
recalculation payload contains exactly one entry for each UserInput field
declared in the registry, keyed by the field's canonical key, and that
entry's value is the pending edit for the canonical key when one exists,
otherwise the snapshot's stored user input for it when present, otherwise
zero. -/
theorem buildPayload_userInput_entries (p : Property) (mv : List (String × ℚ))
    (item : PropertyItem) (hmem : item ∈ userInputItems) :
    countKey (userInputCanonicalKey item.name) (collectCurrentValues p mv) = 1
      ∧ alookup (userInputCanonicalKey item.name) (collectCurrentValues p mv)
        = some (JSVal.num
            ((alookup (userInputCanonicalKey item.name) mv).getD
              ((alookup (userInputCanonicalKey item.name) p.user_inputs).getD 0))) := by
  obtain ⟨hk, hid, hns, hcount⟩ := userInput_key_facts item hmem
  constructor
  · rw [countKey_eq, payload_keys]
    exact hcount
  · unfold collectCurrentValues
    rw [alookup_append_right _ _ _ (fun e he => by
      intro hek
      apply hns
      rw [← hek, ← sourced_keys_eq p]
      exact List.mem_map_of_mem Prod.fst he)]
    rw [alookup_mapped, hid]
    rfl

/-- C2 witness: the theorem applied to the "Vacancy Rate" item, a snapshot
storing vacancy rate 0.04 and a pending edit of 0.05 — the payload entry
carries the pending edit. -/
theorem buildPayload_userInput_entries_witness :
    vacancyItem ∈ userInputItems
      ∧ countKey (userInputCanonicalKey vacancyItem.name)
          (collectCurrentValues propertyVac pendingVac) = 1
      ∧ alookup (userInputCanonicalKey vacancyItem.name)
          (collectCurrentValues propertyVac pendingVac)
        = some (JSVal.num
            ((alookup (userInputCanonicalKey vacancyItem.name) pendingVac).getD
              ((alookup (userInputCanonicalKey vacancyItem.name)
                  propertyVac.user_inputs).getD 0))) :=
  ⟨by decide,
   (buildPayload_userInput_entries propertyVac pendingVac vacancyItem (by decide)).1,
   (buildPayload_userInput_entries propertyVac pendingVac vacancyItem (by decide)).2⟩

/-! ## Claim C6 -/
/-- Every canonical registry key survives the snake-to-camel conversion
followed by the camel-to-snake conversion unchanged. -/
theorem key_roundtrip : ∀ k ∈ registryCanonicalKeys,
    camelToSnakeKey (snakeToCamelKey k) = k := by decide

/- Round trip of the recursive converters over mappings whose keys
(recursively) are registry canonical keys. -/
mutual
theorem roundtrip_json : ∀ j, goodKeysJ j = true →
    convertCamelToSnake (convertSnakeToCamel j) = j
  | .num _, _ => rfl
  | .str _, _ => rfl
  | .jnull, _ => rfl
  | .obj f, h => by
      have hf : goodKeysF f = true := h
      simp only [convertSnakeToCamel, convertCamelToSnake]
      rw [roundtrip_fields f hf]
  | .arr e, h => by
      have he : goodKeysE e = true := h
      simp only [convertSnakeToCamel, convertCamelToSnake]
      rw [roundtrip_elems e he]
theorem roundtrip_fields : ∀ f, goodKeysF f = true →
    convertCamelToSnakeFields (convertSnakeToCamelFields f) = f
  | .nil, _ => rfl
  | .cons k v rest, h => by
      have h' : (registryCanonicalKeys.contains k && goodKeysJ v && goodKeysF rest)
          = true := h
      simp only [Bool.and_eq_true] at h'
      obtain ⟨⟨hk, hv⟩, hrest⟩ := h'
      have hkmem : k ∈ registryCanonicalKeys := by simpa using hk
      simp only [convertSnakeToCamelFields, convertCamelToSnakeFields]
      rw [roundtrip_json v hv, roundtrip_fields rest hrest, key_roundtrip k hkmem]
theorem roundtrip_elems : ∀ e, goodKeysE e = true →
    convertCamelToSnakeElems (convertSnakeToCamelElems e) = e
  | .nil, _ => rfl
  | .cons v rest, h => by
      have h' : (goodKeysJ v && goodKeysE rest) = true := h
      simp only [Bool.and_eq_true] at h'
      obtain ⟨hv, hrest⟩ := h'
      simp only [convertSnakeToCamelElems, convertCamelToSnakeElems]
      rw [roundtrip_json v hv, roundtrip_elems rest hrest]
end

/-- C6: for every mapping whose keys — recursively through nested mappings
and arrays, scalars passing through unchanged — are the Field Registry's
canonical snake-style keys, converting to wire format (snake-to-camel over
every key) and back (camel-to-snake) yields the original mapping. -/
theorem wire_roundtrip (m : MJson) (h : goodKeysJ m = true) :
    convertCamelToSnake (convertSnakeToCamel m) = m :=
  roundtrip_json m h

/-- C6 witness: the round trip on a concrete nested mapping over registry
keys (an object holding a number, an array, and a nested object). -/
theorem wire_roundtrip_witness :
    goodKeysJ wireSample = true
      ∧ convertCamelToSnake (convertSnakeToCamel wireSample) = wireSample :=
  ⟨by decide, wire_roundtrip wireSample (by decide)⟩
